import Mathlib

/-!
Shallow embedding of the scrobble-eligibility and submission pipeline of
`src/modules/lastfm.py` (the `LastFmCog.startscrooble` and
`LastFmCog.connect_vc_update` handlers) and of the Spotify token-cache and
request-wrapper logic of `src/utils/music/audio_sources/spotify.py`.

Conventions:
* Wall-clock timestamps and second counts are rationals (`ℚ`), matching the
  exact values of the Python float/datetime arithmetic on the inputs we use.
* Track durations are naturals, in milliseconds, as in the Lavalink payload.
* Python strings are Lean `String`s; the Python string operations used by the
  source (`endswith`, `startswith`, slicing, `split`) are modelled on the
  underlying character lists with Python semantics.
* Network I/O is modelled by oracles passed as arguments (the response the
  provider would give to each call).
-/

/-! ## Python string operations -/

/-- Python `s.endswith(suffix)`. -/
def pyEndsWith (s suffix : String) : Bool :=
  suffix.data.isSuffixOf s.data

/-- Python `s.startswith(p)`. -/
def pyStartsWith (s p : String) : Bool :=
  p.data.isPrefixOf s.data

/-- Python `s[:-n]` for `n ≥ 0` (empty result when `len(s) ≤ n`). -/
def pySliceDropLast (s : String) (n : Nat) : String :=
  String.mk (s.data.take (s.data.length - n))

/-- Helper for `pySplitOnce`: split a character list at the first occurrence
of the (non-empty) separator. -/
def splitFirst (sep : List Char) : List Char → Option (List Char × List Char)
  | [] => none
  | c :: rest =>
    if sep.isPrefixOf (c :: rest) then some ([], (c :: rest).drop sep.length)
    else
      match splitFirst sep rest with
      | some (a, b) => some (c :: a, b)
      | none => none

/-- Python `s.split(sep, maxsplit=1)` when it yields two pieces; `none` when
the separator does not occur (in the source this raises `ValueError` on
unpacking). -/
def pySplitOnce (s sep : String) : Option (String × String) :=
  (splitFirst sep.data s.data).map (fun p => (String.mk p.1, String.mk p.2))

/-- Python `s.split(",")[0]`: the characters before the first comma. -/
def beforeComma (s : String) : String :=
  String.mk (s.data.takeWhile (fun c => !(c == ',')))

/-! ## Data model (from the spec's TrackInfo and the Lavalink track fields the
source reads) -/

/-- The fields of a Lavalink/partial track that `startscrooble` reads.
`ytid` models the truthiness of `track.ytid`; `duration` is in
milliseconds. -/
structure Track where
  uri : String
  url : String
  title : String
  single_title : String
  author : String
  album_name : String
  duration : Nat
  sourceName : String
  is_stream : Bool
  ytid : Bool
  autoplay : Bool
  requester : Nat
  deriving DecidableEq

/-- A member's voice-state flags read by the per-user gate. -/
structure VoiceFlags where
  self_deaf : Bool
  deaf : Bool
  deriving DecidableEq

/-- A Discord member as read by the handlers. `voice = none` models the
`AttributeError` path when the member has no voice state. -/
structure Member where
  id : Nat
  bot : Bool
  voice : Option VoiceFlags
  deriving DecidableEq

/-- A user's Last.fm session data (the `"lastfm"` object of the stored user
data): the `scrobble` toggle and the (possibly empty) session key. -/
structure FmInfo where
  scrobble : Bool
  sessionkey : String
  deriving DecidableEq

/-- A dedup mark stored in `player.lastfm_users[user_id]` after a successful
submission. -/
structure Mark where
  last_url : String
  last_timestamp : ℚ
  deriving DecidableEq

/-- The mutable state the submission batch touches: the persistent per-user
storage (`get_global_data`/`update_global_data`), the in-memory session
cache (`bot.pool.lastfm_sessions`) and the per-player dedup marks
(`player.lastfm_users`). -/
structure BatchState where
  stored : Nat → FmInfo
  cache : Nat → Option FmInfo
  marks : Nat → Option Mark

/-- A voice channel: its id and current members. -/
structure Channel where
  id : Nat
  members : List Member
  deriving DecidableEq

/-- The player fields `connect_vc_update`/`startscrooble` read. -/
structure Player where
  last_channel : Option Channel
  current : Option Track
  last_track : Option Track
  start_time : ℚ
  deriving DecidableEq

/-- One outbound call to the Last.fm provider (`update_nowplaying` when
`np = true`, `track_scrobble` otherwise), with the keyword arguments the
source builds. -/
structure Call where
  userId : Nat
  np : Bool
  artist : String
  track : String
  album : String
  duration : Nat
  sessionKey : String
  chosenByUser : Option Bool
  deriving DecidableEq

/-- The provider's answer to a submission: success, a `LastFmException` with
an error code, or any other exception. -/
inductive SubmitResult where
  | ok : SubmitResult
  | lastfmErr : Nat → SubmitResult
  | otherErr : SubmitResult
  deriving DecidableEq

/-! ## Track classification (`startscrooble` lines 446–458 and 471–499) -/

/-- The eligibility guard at the top of `startscrooble`: live streams and
`local`/`http` sources are always rejected; for a track-end invocation
(`update_np = False`) the reason must be `FINISHED`, the duration at least
20000 ms, and the elapsed wall-clock seconds at least 75% of the duration in
seconds. -/
def scrobbleEligible (tr : Track) (updateNp : Bool) (reason : Option String)
    (now startTime : ℚ) : Bool :=
  if tr.is_stream || tr.sourceName == "local" || tr.sourceName == "http" then false
  else if updateNp then true
  else if reason ≠ some "FINISHED" then false
  else if tr.duration < 20000 then false
  else if now - startTime < ((tr.duration : ℚ) * (3 / 4)) / 1000 then false
  else true

/-- The album fallback of line 498: keep the recorded album name, else for
`spotify`/`deezer`/`applemusic`/`tidal` sources outside autoplay use the
single title. -/
def albumOf (tr : Track) : String :=
  if tr.album_name ≠ "" then tr.album_name
  else if !tr.autoplay &&
      (tr.sourceName == "spotify" || tr.sourceName == "deezer" ||
       tr.sourceName == "applemusic" || tr.sourceName == "tidal") then
    tr.single_title
  else tr.album_name

/-- Artist/title/album/duration derivation of lines 471–499. Returns `none`
on the early return for `youtube`/`soundcloud` tracks without an album
name. Duration is `int(track.duration / 1000)` seconds. -/
def deriveFields (tr : Track) : Option (String × String × String × Nat) :=
  if tr.sourceName == "youtube" || tr.sourceName == "soundcloud" then
    if tr.album_name = "" then none
    else
      let an : String × String :=
        if tr.ytid then
          if pyEndsWith tr.author " - topic" &&
              !(pyEndsWith tr.author "Release - topic") &&
              !(pyStartsWith tr.title (pySliceDropLast tr.author 8)) then
            (pySliceDropLast tr.author 8, tr.title)
          else
            match pySplitOnce tr.title " - " with
            | some (a, n) => (a, n)
            | none => (tr.author, tr.title)
        else (tr.author, tr.single_title)
      some (beforeComma an.1, an.2, albumOf tr, tr.duration / 1000)
  else
    some (beforeComma tr.author, tr.single_title, albumOf tr, tr.duration / 1000)

/-! ## Per-user gate and submission loop (`startscrooble` lines 501–555) -/

/-- The derived per-batch context handed unchanged to every user iteration. -/
structure Ctx where
  artist : String
  trackName : String
  album : String
  duration : Nat
  updateNp : Bool
  requester : Nat
  trackUrl : String
  now : ℚ

/-- Session resolution (lines 512–517): read the in-memory cache, else load
from persistent storage and populate the cache. -/
def lookupFm (st : BatchState) (uid : Nat) : FmInfo × BatchState :=
  match st.cache uid with
  | some fi => (fi, st)
  | none =>
    (st.stored uid,
     { st with cache := fun k => if k = uid then some (st.stored uid) else st.cache k })

/-- The keyword arguments built at lines 522–532: the `chosen_by_user=False`
flag is added only on the scrobble branch, when the listener is not the
requester. -/
def mkCall (ctx : Ctx) (u : Member) (fi : FmInfo) : Call :=
  { userId := u.id, np := ctx.updateNp, artist := ctx.artist, track := ctx.trackName,
    album := ctx.album, duration := ctx.duration, sessionKey := fi.sessionkey,
    chosenByUser :=
      if ctx.updateNp then none
      else if ctx.requester ≠ u.id then some false else none }

/-- One iteration of the `for user in users or player.last_channel.members`
loop: the bot/deafened/session gates, the provider call, the code-9 session
invalidation, and the mark recorded on success. -/
def processUser (ctx : Ctx) (prov : Call → SubmitResult) (st : BatchState)
    (u : Member) : BatchState × List Call :=
  if u.bot then (st, [])
  else
    match u.voice with
    | none => (st, [])
    | some vs =>
      if vs.self_deaf || vs.deaf then (st, [])
      else
        let fi := (lookupFm st u.id).1
        let st1 := (lookupFm st u.id).2
        if fi.scrobble = false || fi.sessionkey = "" then (st1, [])
        else
          let call := mkCall ctx u fi
          match prov call with
          | SubmitResult.ok =>
            ({ st1 with
               marks := fun k =>
                 if k = u.id then some ⟨ctx.trackUrl, ctx.now + (ctx.duration : ℚ)⟩
                 else st1.marks k }, [call])
          | SubmitResult.lastfmErr code =>
            if code = 9 then
              ({ stored := fun k =>
                   if k = u.id then { st1.stored k with sessionkey := "" } else st1.stored k,
                 cache := fun k => if k = u.id then none else st1.cache k,
                 marks := fun k => if k = u.id then none else st1.marks k }, [call])
            else (st1, [call])
          | SubmitResult.otherErr => (st1, [call])

/-- The whole per-user loop over the candidate roster. -/
def processUsers (ctx : Ctx) (prov : Call → SubmitResult) (st : BatchState) :
    List Member → BatchState × List Call
  | [] => (st, [])
  | u :: rest =>
    let pu := processUser ctx prov st u
    let pr := processUsers ctx prov pu.1 rest
    (pr.1, pu.2 ++ pr.2)

/-- The outcome of one `startscrooble` invocation: the provider calls made and
the final state; `hangs = true` records that the voice-wait loop never
exits (the invocation diverges before touching any state). -/
structure ScResult where
  hangs : Bool
  calls : List Call
  st : BatchState

/-- The `startscrooble` listener (lines 444–555). `voice` is the (stable)
truthiness of `player.guild.me.voice` during the invocation; `usersArg` is
the `users` parameter and `channelMembers` the fallback roster
`player.last_channel.members`; `prov` is the provider's response to each
submission. -/
def startscrooble (st : BatchState) (track : Option Track) (reason : Option String)
    (updateNp : Bool) (usersArg : Option (List Member)) (channelMembers : List Member)
    (voice : Bool) (prov : Call → SubmitResult) (now startTime : ℚ) : ScResult :=
  match track with
  | none => ⟨false, [], st⟩
  | some tr =>
    if !(scrobbleEligible tr updateNp reason now startTime) then ⟨false, [], st⟩
    else if !voice then ⟨true, [], st⟩
    else
      match deriveFields tr with
      | none => ⟨false, [], st⟩
      | some (artist, name, album, dur) =>
        let users :=
          match usersArg with
          | some l => if l.isEmpty then channelMembers else l
          | none => channelMembers
        let ctx : Ctx :=
          ⟨artist, name, album, dur, updateNp, tr.requester, tr.url, now⟩
        let pr := processUsers ctx prov st users
        ⟨false, pr.2, pr.1⟩

/-! ## The voice-state-update handler (`connect_vc_update`, lines 409–437) -/

/-- The gating of `connect_vc_update`: `none` when the handler returns before
invoking `startscrooble`; otherwise the track, fallback roster and
start time used for the invocation with `users=[member]`. -/
def vcInvokes (marks : Nat → Option Mark) (player : Option Player) (member : Member)
    (beforeCh afterCh : Option Channel) (now : ℚ) :
    Option (Option Track × List Member × ℚ) :=
  if member.bot then none
  else
    match afterCh with
    | none => none
    | some ac =>
      if beforeCh = some ac then none
      else
        match player with
        | none => none
        | some p =>
          if p.last_channel ≠ some ac then none
          else
            match p.current with
            | none => none
            | some cur =>
              if member ∉ ac.members then none
              else
                match marks member.id with
                | some m =>
                  if m.last_url = cur.uri ∧ now < m.last_timestamp then none
                  else some (p.last_track, ac.members, p.start_time)
                | none => some (p.last_track, ac.members, p.start_time)

/-- The full `on_voice_state_update` handler: when the gate passes it runs
`startscrooble(player=player, track=player.last_track, users=[member])`,
with `reason` left `None` and `update_np` left `False`. -/
def connect_vc_update (st : BatchState) (player : Option Player) (member : Member)
    (beforeCh afterCh : Option Channel) (voice : Bool)
    (prov : Call → SubmitResult) (now : ℚ) : ScResult :=
  match vcInvokes st.marks player member beforeCh afterCh now with
  | none => ⟨false, [], st⟩
  | some (tr, chMembers, startTime) =>
    startscrooble st tr none false (some [member]) chMembers voice prov now startTime

/-! ## The voice-wait loop of `startscrooble` (lines 460–466), iteration
semantics with a time-varying voice connection -/

/-- State of the `while counter > 0` wait loop: the `counter` variable and
whether the loop has exited. -/
structure LoopState where
  counter : Nat
  exited : Bool
  deriving DecidableEq

/-- One iteration of the wait loop: with `counter > 0`, an inactive voice
connection sleeps and continues (leaving `counter` unchanged, as in the
source), an active one breaks; with `counter = 0` the loop condition fails. -/
def loopStep (voiceNow : Bool) (s : LoopState) : LoopState :=
  if s.exited then s
  else if 0 < s.counter then
    if voiceNow then { s with exited := true } else s
  else { s with exited := true }

/-- The wait loop after `n` iterations, starting from `counter = 3`, where
`voice t` tells whether the bot's voice connection is active at iteration
`t`. -/
def loopRun (voice : Nat → Bool) : Nat → LoopState
  | 0 => ⟨3, false⟩
  | n + 1 => loopStep (voice n) (loopRun voice n)

/-! ## Spotify token cache and request wrapper
(`src/utils/music/audio_sources/spotify.py`) -/

/-- The `spotify_cache` dict: each Python key the source reads or writes is
an optional field (`none` = key absent). `typ` is the key `"type"` and
`tyoe` the misspelled key `"tyoe"` written by the client-credentials
branch. -/
structure SpotifyCache where
  access_token : Option String
  expires_in : Option ℚ
  expires_at : Option ℚ
  typ : Option String
  tyoe : Option String
  deriving DecidableEq

/-- The empty cache of a fresh client with no on-disk cache file. -/
def emptyCache : SpotifyCache := ⟨none, none, none, none, none⟩

/-- The `SpotifyClient` attributes the token/request logic touches.
`hasCreds` is the truthiness of `client_id and client_secret`; `typ` is
`self.type`. -/
structure SpotifyClient where
  hasCreds : Bool
  spotify_cache : SpotifyCache
  disabled : Bool
  typ : String
  deriving DecidableEq

/-- The network responses the token endpoints would give: the anonymous
visitor endpoint's token and `accessTokenExpirationTimestampMs`, and the
client-credentials endpoint's error flag, token and `expires_in`. -/
structure TokenEnv where
  visitorTok : String
  visitorExpMs : ℚ
  apiError : Bool
  apiTok : String
  apiExpIn : ℚ
  deriving DecidableEq

/-- The visitor branch of `get_access_token` (lines 106–118): replaces the
cache wholesale with `{access_token, expires_in, expires_at, type}` and sets
`self.type = "visitor"`. The source computes
`expires_at = time.time() + accessTokenExpirationTimestampMs`. -/
def visitorRefresh (c : SpotifyClient) (now : ℚ) (te : TokenEnv) : SpotifyClient :=
  { c with
    spotify_cache :=
      { access_token := some te.visitorTok, expires_in := some te.visitorExpMs,
        expires_at := some (now + te.visitorExpMs), typ := some "visitor", tyoe := none },
    typ := "visitor" }

/-- `get_access_token` (lines 104–153): visitor refresh without credentials;
with credentials, on an error response clear the credentials and fall back
to the visitor refresh, otherwise replace the cache with the raw token
response (which has no `"type"` key), set `self.type = "api"`, write the
misspelled `"tyoe"` key, and set `expires_at = time.time() + expires_in`. -/
def get_access_token (c : SpotifyClient) (now : ℚ) (te : TokenEnv) : SpotifyClient :=
  if !c.hasCreds then visitorRefresh c now te
  else if te.apiError then visitorRefresh { c with hasCreds := false } now te
  else
    { c with
      spotify_cache :=
        { access_token := some te.apiTok, expires_in := some te.apiExpIn,
          expires_at := some (now + te.apiExpIn), typ := none, tyoe := some "api" },
      typ := "api" }

/-- The error raised by a missing cache key (a Python `KeyError`). -/
inductive TokErr where
  | keyError : String → TokErr
  deriving DecidableEq

/-- `get_valid_access_token` (lines 155–158). Returns the token, the client
after the call, and whether a refresh was triggered; `KeyError` when the
cache lacks the key the source indexes unconditionally. -/
def get_valid_access_token (c : SpotifyClient) (now : ℚ) (te : TokenEnv) :
    Except TokErr (String × SpotifyClient × Bool) :=
  match c.spotify_cache.expires_at with
  | none => Except.error (TokErr.keyError "expires_at")
  | some ea =>
    if now ≥ ea ∨ c.spotify_cache.typ ≠ some c.typ then
      match (get_access_token c now te).spotify_cache.access_token with
      | none => Except.error (TokErr.keyError "access_token")
      | some tok => Except.ok (tok, get_access_token c now te, true)
    else
      match c.spotify_cache.access_token with
      | none => Except.error (TokErr.keyError "access_token")
      | some tok => Except.ok (tok, c, false)

/-- HTTP statuses distinguished by the `request` wrapper. -/
inductive Status where
  | s200 : Status
  | s401 : Status
  | s404 : Status
  | s429 : Status
  | other : Status
  deriving DecidableEq

/-- How one `request` invocation ends: the silent `None` returns (disabled
client, fresh 429), a 200 payload, the 404 `GenericError`, a propagated
`KeyError` from the token cache, `raise_for_status`, or exhaustion of the
recursion fuel (the source recurses unboundedly on 401). -/
inductive ReqRes where
  | noneDisabled : ReqRes
  | noneRatelimited : ReqRes
  | okJson : ReqRes
  | notFoundErr : ReqRes
  | tokenErr : ReqRes
  | statusErr : ReqRes
  | fuelOut : ReqRes
  deriving DecidableEq

/-- The `request` wrapper (lines 47–69), with explicit recursion fuel for the
self-call on 401. `hs i` is the HTTP status of the `i`-th GET attempt.
Returns the outcome, the client afterwards, and the number of network GET
attempts made. -/
def requestAux : Nat → SpotifyClient → ℚ → TokenEnv → (Nat → Status) → Nat →
    ReqRes × SpotifyClient × Nat
  | 0, c, _, _, _, _ => (ReqRes.fuelOut, c, 0)
  | f + 1, c, now, te, hs, i =>
    if c.disabled then (ReqRes.noneDisabled, c, 0)
    else
      match get_valid_access_token c now te with
      | Except.error _ => (ReqRes.tokenErr, c, 0)
      | Except.ok (_, c1, _) =>
        match hs i with
        | Status.s200 => (ReqRes.okJson, c1, 1)
        | Status.s401 =>
          let c2 := get_access_token c1 now te
          let r := requestAux f c2 now te hs (i + 1)
          (r.1, r.2.1, r.2.2 + 1)
        | Status.s404 => (ReqRes.notFoundErr, c1, 1)
        | Status.s429 => (ReqRes.noneRatelimited, { c1 with disabled := true }, 1)
        | Status.other => (ReqRes.statusErr, c1, 1)

/-! ## Concrete fixtures -/

/-- Persistent user storage where every user has scrobbling enabled and a
linked session key. -/
def storedA : Nat → FmInfo := fun _ => ⟨true, "sk"⟩

/-- Initial batch state: empty session cache and no dedup marks. -/
def st0 : BatchState := ⟨storedA, fun _ => none, fun _ => none⟩

/-- An ordinary listening member. -/
def mem1 : Member := ⟨1, false, some ⟨false, false⟩⟩

/-- A provider that accepts every submission. -/
def provOk : Call → SubmitResult := fun _ => SubmitResult.ok

/-- A provider that answers every submission with error code 9. -/
def prov9 : Call → SubmitResult := fun _ => SubmitResult.lastfmErr 9

/-- A 200-second non-stream Spotify track requested by user 1. -/
def trkA : Track := ⟨"u", "u", "S", "S", "A", "alb", 200000, "spotify", false, false, false, 1⟩

/-- A 10-second track, below the 20000 ms scrobble threshold. -/
def trkShort : Track :=
  ⟨"u5", "u5", "S", "S", "A", "alb", 10000, "spotify", false, false, false, 1⟩

/-! ## Claim theorems -/

/-- C3: the claim says the voice-wait polling loop in `startscrooble` retries
a bounded number of times and terminates for every input. The source
initialises `counter = 3` and loops `while counter > 0`, but never
decrements `counter`: when the voice connection never becomes active, after
any number of iterations the loop has not exited and the counter still
equals 3, so the loop never terminates and the silent-abandon return after
it is unreachable. -/
theorem c3_wait_loop_never_exits (voice : Nat → Bool) (h : ∀ t, voice t = false) (n : Nat) :
    (loopRun voice n).exited = false ∧ (loopRun voice n).counter = 3 := by
  induction n with
  | zero => exact ⟨rfl, rfl⟩
  | succ k ih => simp [loopRun, loopStep, ih.1, ih.2, h k]

/-- Witness for C3 at a concretely inactive voice connection and 10
iterations. -/
theorem c3_wait_loop_never_exits_witness :
    (loopRun (fun _ => false) 10).exited = false ∧
    (loopRun (fun _ => false) 10).counter = 3 :=
  c3_wait_loop_never_exits (fun _ => false) (fun _ => rfl) 10

/-- C4: for a track-end event with reason `FINISHED` on a non-stream track
with eligible source and duration at least 20000 ms, elapsed time strictly
under 75% of the duration makes `startscrooble` return with no submission
and unchanged state, while elapsed time exactly equal to 75% passes the
eligibility guard. -/
theorem c4_finished_75_threshold (st : BatchState) (tr : Track)
    (ua : Option (List Member)) (cm : List Member) (voice : Bool)
    (prov : Call → SubmitResult) (now startTime : ℚ)
    (hstream : tr.is_stream = false) (hl : tr.sourceName ≠ "local")
    (hh : tr.sourceName ≠ "http") (hdur : 20000 ≤ tr.duration) :
    (now - startTime < ((tr.duration : ℚ) * (3 / 4)) / 1000 →
      startscrooble st (some tr) (some "FINISHED") false ua cm voice prov now startTime =
        ⟨false, [], st⟩) ∧
    (now - startTime = ((tr.duration : ℚ) * (3 / 4)) / 1000 →
      scrobbleEligible tr false (some "FINISHED") now startTime = true) := by
  constructor
  · intro hlt
    have he : scrobbleEligible tr false (some "FINISHED") now startTime = false := by
      simp [scrobbleEligible, hstream, beq_iff_eq, hl, hh, Nat.not_lt.mpr hdur, hlt]
    simp [startscrooble, he]
  · intro heq
    simp [scrobbleEligible, hstream, beq_iff_eq, hl, hh, Nat.not_lt.mpr hdur, heq]

/-- Witness for C4 on the concrete 200-second track: elapsed 100 s (50%)
yields no submission; elapsed 150 s (exactly 75%) passes the guard. -/
theorem c4_finished_75_threshold_witness :
    (startscrooble st0 (some trkA) (some "FINISHED") false none [mem1] true provOk 100 0 =
      ⟨false, [], st0⟩) ∧
    scrobbleEligible trkA false (some "FINISHED") 150 0 = true :=
  ⟨(c4_finished_75_threshold st0 trkA none [mem1] true provOk 100 0 rfl (by decide) (by decide)
      (by norm_num [trkA])).1 (by norm_num [trkA]),
   (c4_finished_75_threshold st0 trkA none [mem1] true provOk 150 0 rfl (by decide) (by decide)
      (by norm_num [trkA])).2 (by norm_num [trkA])⟩

/-- C5 counterexample: the claim says a track under 20000 ms is skipped for
every event kind with no provider submission of any kind. On the
now-playing event (`update_np=True`) the source skips the duration check
entirely: a 10000 ms track passes the guard and an `update_nowplaying`
submission is made. -/
theorem c5_counterexample :
    trkShort.duration < 20000 ∧
    scrobbleEligible trkShort true none 0 0 = true ∧
    (startscrooble st0 (some trkShort) none true (some [mem1]) [] true provOk 0 0).calls =
      [⟨1, true, "A", "S", "alb", 10, "sk", none⟩] := by
  refine ⟨by norm_num [trkShort], by decide, ?_⟩
  norm_num +decide [startscrooble, scrobbleEligible, deriveFields, albumOf, beforeComma,
    processUsers, processUser, lookupFm, mkCall, storedA, st0, mem1, provOk, trkShort]

/-- C5 amended: on every track-end invocation (`update_np=False`), a track
with duration under 20000 ms is always skipped — `startscrooble` returns
with no submission of any kind and unchanged state, regardless of reason;
the now-playing path performs no duration check. -/
theorem c5_short_track_skipped (st : BatchState) (tr : Track) (reason : Option String)
    (ua : Option (List Member)) (cm : List Member) (voice : Bool)
    (prov : Call → SubmitResult) (now startTime : ℚ) (h : tr.duration < 20000) :
    startscrooble st (some tr) reason false ua cm voice prov now startTime =
      ⟨false, [], st⟩ := by
  have he : scrobbleEligible tr false reason now startTime = false := by
    unfold scrobbleEligible
    split_ifs <;> first | rfl | omega | simp_all
  simp [startscrooble, he]

/-- Witness for the amended C5 at the concrete 10-second track. -/
theorem c5_short_track_skipped_witness :
    startscrooble st0 (some trkShort) (some "FINISHED") false none [mem1] true provOk 100 0 =
      ⟨false, [], st0⟩ :=
  c5_short_track_skipped st0 trkShort (some "FINISHED") none [mem1] true provOk 100 0
    (by norm_num [trkShort])

/-- C10: the voice-state-update handler always invokes `startscrooble` with
`reason=None` and `update_np=False`, so the invocation returns at the
reason guard: for every state and event, `connect_vc_update` makes no
provider call of any kind, never hangs, and leaves storage, session cache
and dedup marks unchanged. -/
theorem c10_vc_update_never_submits (st : BatchState) (player : Option Player)
    (member : Member) (beforeCh afterCh : Option Channel) (voice : Bool)
    (prov : Call → SubmitResult) (now : ℚ) :
    connect_vc_update st player member beforeCh afterCh voice prov now = ⟨false, [], st⟩ := by
  unfold connect_vc_update
  cases hinv : vcInvokes st.marks player member beforeCh afterCh now with
  | none => rfl
  | some payload =>
    obtain ⟨tr, cm, stt⟩ := payload
    cases tr with
    | none => rfl
    | some t =>
      have he : scrobbleEligible t false none now stt = false := by
        unfold scrobbleEligible
        split_ifs <;> simp_all
      simp [startscrooble, he]

/-- The first track-end scrobble of the C1 scenario: track `trkA` finishes
naturally at t=200 s (started at t=0) with user 1 listening; the provider
accepts, so a mark expiring at t=400 is recorded. -/
def c1run1 : ScResult :=
  startscrooble st0 (some trkA) (some "FINISHED") false none [mem1] true provOk 200 0

/-- C1 counterexample: after the first successful Scrobble call records a
mark with `expires_at = 400`, a second qualifying track-end event for the
same (user 1, uri "u") at `now = 350 < 400` produces a second `Scrobble`
call: the submission path never consults the dedup mark, so the claimed
invariant fails. -/
theorem c1_counterexample :
    c1run1.st.marks 1 = some ⟨"u", 400⟩ ∧
    c1run1.calls = [⟨1, false, "A", "S", "alb", 200, "sk", none⟩] ∧
    (350 : ℚ) < 400 ∧
    (startscrooble c1run1.st (some trkA) (some "FINISHED") false none [mem1] true provOk
        350 200).calls = [⟨1, false, "A", "S", "alb", 200, "sk", none⟩] := by
  refine ⟨?_, ?_, by norm_num, ?_⟩ <;>
    norm_num +decide [c1run1, startscrooble, scrobbleEligible, deriveFields, albumOf,
      beforeComma, processUsers, processUser, lookupFm, mkCall, storedA, st0, mem1,
      provOk, trkA]

/-- Helper: one iteration of the submission loop never reads the dedup
marks — two states agreeing on storage and cache produce the same calls and
the same storage/cache afterwards. -/
theorem processUser_marks_indep (ctx : Ctx) (prov : Call → SubmitResult)
    (st st' : BatchState) (u : Member)
    (hs : st.stored = st'.stored) (hc : st.cache = st'.cache) :
    (processUser ctx prov st u).2 = (processUser ctx prov st' u).2 ∧
    (processUser ctx prov st u).1.stored = (processUser ctx prov st' u).1.stored ∧
    (processUser ctx prov st u).1.cache = (processUser ctx prov st' u).1.cache := by
  rcases st with ⟨s, c, m⟩
  rcases st' with ⟨s', c', m'⟩
  simp only at hs hc
  subst hs
  subst hc
  by_cases hb : u.bot = true
  · simp [processUser, hb]
  · cases hvo : u.voice with
    | none => simp [processUser, hb, hvo]
    | some vs =>
      by_cases hd : (vs.self_deaf || vs.deaf) = true
      · simp [processUser, hb, hvo, hd]
      · cases hc2 : c u.id with
        | some fi =>
          by_cases hcond : fi.scrobble = false ∨ fi.sessionkey = ""
          · simp [processUser, lookupFm, hb, hvo, hd, hc2, hcond]
          · cases hp : prov (mkCall ctx u fi) with
            | ok => simp [processUser, lookupFm, hb, hvo, hd, hc2, hcond, hp]
            | lastfmErr code =>
              by_cases h9 : code = 9 <;>
                simp [processUser, lookupFm, hb, hvo, hd, hc2, hcond, hp, h9]
            | otherErr => simp [processUser, lookupFm, hb, hvo, hd, hc2, hcond, hp]
        | none =>
          by_cases hcond : (s u.id).scrobble = false ∨ (s u.id).sessionkey = ""
          · simp [processUser, lookupFm, hb, hvo, hd, hc2, hcond]
          · cases hp : prov (mkCall ctx u (s u.id)) with
            | ok => simp [processUser, lookupFm, hb, hvo, hd, hc2, hcond, hp]
            | lastfmErr code =>
              by_cases h9 : code = 9 <;>
                simp [processUser, lookupFm, hb, hvo, hd, hc2, hcond, hp, h9]
            | otherErr => simp [processUser, lookupFm, hb, hvo, hd, hc2, hcond, hp]

/-- Helper: the whole submission loop emits the same calls from two states
agreeing on storage and cache, whatever their dedup marks are. -/
theorem processUsers_marks_indep (ctx : Ctx) (prov : Call → SubmitResult)
    (us : List Member) :
    ∀ (st st' : BatchState), st.stored = st'.stored → st.cache = st'.cache →
      (processUsers ctx prov st us).2 = (processUsers ctx prov st' us).2 := by
  induction us with
  | nil => intros; rfl
  | cons u rest ih =>
    intro st st' hs hc
    obtain ⟨h2, hstored, hcache⟩ := processUser_marks_indep ctx prov st st' u hs hc
    simp only [processUsers]
    rw [h2, ih (processUser ctx prov st u).1 (processUser ctx prov st' u).1 hstored hcache]

/-- Helper: the `connect_vc_update` gate never invokes `startscrooble` while
an unexpired mark for the currently playing uri exists for the member. -/
theorem vcInvokes_mark_gate (marks : Nat → Option Mark) (p : Player) (member : Member)
    (beforeCh afterCh : Option Channel) (now : ℚ) (cur : Track) (m : Mark)
    (hcur : p.current = some cur) (hm : marks member.id = some m)
    (hurl : m.last_url = cur.uri) (hts : now < m.last_timestamp) :
    vcInvokes marks (some p) member beforeCh afterCh now = none := by
  by_cases hb : member.bot = true
  · simp [vcInvokes, hb]
  · cases afterCh with
    | none => simp [vcInvokes, hb]
    | some ac =>
      by_cases h1 : beforeCh = some ac
      · simp [vcInvokes, hb, h1]
      · by_cases h2 : p.last_channel = some ac
        · by_cases h3 : member ∈ ac.members
          · simp [vcInvokes, hb, h1, h2, hcur, hm, h3, hurl, hts]
          · simp [vcInvokes, hb, h1, h2, hcur, h3]
        · simp [vcInvokes, hb, h1, h2]

/-- C1 amended: the dedup mark is consulted only by the voice-state-update
handler — while `now < expires_at` for the currently playing uri,
`connect_vc_update` returns without invoking `startscrooble` — whereas the
track-end and now-playing submission paths never read the marks: the calls
they emit are identical for any two mark states, so a second `Scrobble`
call for the same (user, track_uri) pair can occur before `expires_at`
whenever another qualifying track-end event arrives. -/
theorem c1_mark_only_gates_vc_update :
    (∀ (marks : Nat → Option Mark) (p : Player) (member : Member)
       (beforeCh afterCh : Option Channel) (now : ℚ) (cur : Track) (m : Mark),
       p.current = some cur → marks member.id = some m → m.last_url = cur.uri →
       now < m.last_timestamp →
       vcInvokes marks (some p) member beforeCh afterCh now = none) ∧
    (∀ (ctx : Ctx) (prov : Call → SubmitResult) (st st' : BatchState) (us : List Member),
       st.stored = st'.stored → st.cache = st'.cache →
       (processUsers ctx prov st us).2 = (processUsers ctx prov st' us).2) :=
  ⟨fun marks p member b a now cur m hcur hm hurl hts =>
     vcInvokes_mark_gate marks p member b a now cur m hcur hm hurl hts,
   fun ctx prov st st' us hs hc => processUsers_marks_indep ctx prov us st st' hs hc⟩

/-- Witness for the amended C1: with an unexpired mark for uri "u" the
voice-state gate yields no invocation, and the batch over user 1 emits the
same calls with and without that mark. -/
theorem c1_mark_only_gates_vc_update_witness :
    vcInvokes (fun k => if k = 1 then some ⟨"u", 400⟩ else none)
      (some ⟨some ⟨5, [mem1]⟩, some trkA, some trkA, 0⟩) mem1 none (some ⟨5, [mem1]⟩)
      350 = none ∧
    (processUsers ⟨"A", "S", "alb", 200, false, 1, "u", 200⟩ provOk
        ⟨storedA, fun _ => none, fun k => if k = 1 then some ⟨"u", 400⟩ else none⟩
        [mem1]).2 =
      (processUsers ⟨"A", "S", "alb", 200, false, 1, "u", 200⟩ provOk
        ⟨storedA, fun _ => none, fun _ => none⟩ [mem1]).2 :=
  ⟨c1_mark_only_gates_vc_update.1 _ _ mem1 none _ 350 trkA ⟨"u", 400⟩ rfl
     (by simp [mem1]) rfl (by norm_num),
   c1_mark_only_gates_vc_update.2 _ provOk _ _ [mem1] rfl rfl⟩

/-- C6: when the provider answers a user's submission with error code 9, the
loop empties the user's stored session key (keeping the rest of the user
record), deletes the cached session entry and any existing mark for the
user, creates no new mark, makes exactly one call for the user (no retry),
and the batch continues with the remaining users from the updated state. -/
theorem c6_code9_invalidates_session (ctx : Ctx) (prov : Call → SubmitResult)
    (st : BatchState) (u : Member) (rest : List Member)
    (hb : u.bot = false) (hv : u.voice = some ⟨false, false⟩)
    (hsc : (lookupFm st u.id).1.scrobble = true)
    (hk : (lookupFm st u.id).1.sessionkey ≠ "")
    (h9 : prov (mkCall ctx u (lookupFm st u.id).1) = SubmitResult.lastfmErr 9) :
    ((processUser ctx prov st u).1.stored u.id).sessionkey = "" ∧
    ((processUser ctx prov st u).1.stored u.id).scrobble = (st.stored u.id).scrobble ∧
    (processUser ctx prov st u).1.cache u.id = none ∧
    (processUser ctx prov st u).1.marks u.id = none ∧
    (processUser ctx prov st u).2 = [mkCall ctx u (lookupFm st u.id).1] ∧
    processUsers ctx prov st (u :: rest) =
      ((processUsers ctx prov (processUser ctx prov st u).1 rest).1,
       (processUser ctx prov st u).2 ++
         (processUsers ctx prov (processUser ctx prov st u).1 rest).2) := by
  have hpu : processUser ctx prov st u =
      ({ stored := fun k =>
           if k = u.id then { (lookupFm st u.id).2.stored k with sessionkey := "" }
           else (lookupFm st u.id).2.stored k,
         cache := fun k => if k = u.id then none else (lookupFm st u.id).2.cache k,
         marks := fun k => if k = u.id then none else (lookupFm st u.id).2.marks k },
       [mkCall ctx u (lookupFm st u.id).1]) := by
    simp [processUser, hb, hv, hsc, hk, h9]
  have hstored : (lookupFm st u.id).2.stored = st.stored := by
    unfold lookupFm
    cases st.cache u.id <;> rfl
  refine ⟨?_, ?_, ?_, ?_, ?_, ?_⟩
  · simp [hpu]
  · simp [hpu, hstored]
  · simp [hpu]
  · simp [hpu]
  · simp [hpu]
  · simp [processUsers]

/-- Witness for C6: user 1 gets code 9 from the provider on the concrete
batch; the session key is wiped, cache and mark entries removed, one call
made, and the loop equation continues with the rest. -/
theorem c6_code9_invalidates_session_witness :
    ((processUser ⟨"A", "S", "alb", 200, false, 1, "u", 200⟩ prov9 st0 mem1).1.stored 1).sessionkey = "" ∧
    ((processUser ⟨"A", "S", "alb", 200, false, 1, "u", 200⟩ prov9 st0 mem1).1.stored 1).scrobble = (st0.stored 1).scrobble ∧
    (processUser ⟨"A", "S", "alb", 200, false, 1, "u", 200⟩ prov9 st0 mem1).1.cache 1 = none ∧
    (processUser ⟨"A", "S", "alb", 200, false, 1, "u", 200⟩ prov9 st0 mem1).1.marks 1 = none ∧
    (processUser ⟨"A", "S", "alb", 200, false, 1, "u", 200⟩ prov9 st0 mem1).2 =
      [mkCall ⟨"A", "S", "alb", 200, false, 1, "u", 200⟩ mem1 (lookupFm st0 1).1] ∧
    processUsers ⟨"A", "S", "alb", 200, false, 1, "u", 200⟩ prov9 st0 (mem1 :: [mem1]) =
      ((processUsers ⟨"A", "S", "alb", 200, false, 1, "u", 200⟩ prov9
          (processUser ⟨"A", "S", "alb", 200, false, 1, "u", 200⟩ prov9 st0 mem1).1 [mem1]).1,
       (processUser ⟨"A", "S", "alb", 200, false, 1, "u", 200⟩ prov9 st0 mem1).2 ++
         (processUsers ⟨"A", "S", "alb", 200, false, 1, "u", 200⟩ prov9
           (processUser ⟨"A", "S", "alb", 200, false, 1, "u", 200⟩ prov9 st0 mem1).1 [mem1]).2) :=
  c6_code9_invalidates_session ⟨"A", "S", "alb", 200, false, 1, "u", 200⟩ prov9 st0 mem1 [mem1]
    rfl rfl (by simp [lookupFm, st0, storedA, mem1]) (by simp [lookupFm, st0, storedA, mem1])
    (by simp [prov9])

/-- The C9 scenario track, with the unspecified fields instantiated in the
scenario's spirit: the title equals the single title and the album name is
non-empty (the source returns early for youtube tracks without one). -/
def trk9 : Track := ⟨"u9", "u9", "Song Title", "Song Title", "Artist - Topic", "Song Title",
  200000, "youtube", false, true, false, 1⟩

/-- The C9 scenario track with the uploader suffix in the lower case the
source's case-sensitive check requires. -/
def trk9fixed : Track := ⟨"u9", "u9", "Song Title", "Song Title", "Artist - topic",
  "Song Title", 200000, "youtube", false, true, false, 1⟩

/-- C9 counterexample: on the scenario input with author "Artist - Topic",
the source's case-sensitive check of the " - topic" suffix fails (the
author ends in " - Topic"), so the title-split fallback leaves the full
uploader name as artist: classification yields artist "Artist - Topic",
not "Artist". -/
theorem c9_counterexample :
    deriveFields trk9 = some ("Artist - Topic", "Song Title", "Song Title", 200) ∧
    "Artist - Topic" ≠ "Artist" ∧
    (startscrooble st0 (some trk9) (some "FINISHED") false none [mem1] true provOk
        180 0).calls =
      [⟨1, false, "Artist - Topic", "Song Title", "Song Title", 200, "sk", none⟩] := by
  refine ⟨by decide, by decide, ?_⟩
  norm_num +decide [startscrooble, scrobbleEligible, deriveFields, albumOf, beforeComma,
    pyEndsWith, pyStartsWith, pySliceDropLast, pySplitOnce, splitFirst,
    processUsers, processUser, lookupFm, mkCall, storedA, st0, mem1, provOk, trk9]

/-- C9 amended: with the author's topic suffix in the lower case the
source's case-sensitive check requires ("Artist - topic"), together with a
non-empty album name and title "Song Title", the scenario's expected output
holds: artist "Artist", track "Song Title", duration 200 seconds. -/
theorem c9_topic_scenario_amended :
    deriveFields trk9fixed = some ("Artist", "Song Title", "Song Title", 200) ∧
    (startscrooble st0 (some trk9fixed) (some "FINISHED") false none [mem1] true provOk
        180 0).calls =
      [⟨1, false, "Artist", "Song Title", "Song Title", 200, "sk", none⟩] := by
  refine ⟨by decide, ?_⟩
  norm_num +decide [startscrooble, scrobbleEligible, deriveFields, albumOf, beforeComma,
    pyEndsWith, pyStartsWith, pySliceDropLast, pySplitOnce, splitFirst,
    processUsers, processUser, lookupFm, mkCall, storedA, st0, mem1, provOk, trk9fixed]

/-- Token-endpoint responses used by the concrete Spotify scenarios. -/
def teDefault : TokenEnv := ⟨"vtok", 3600, false, "atok", 3600⟩

/-- A freshly constructed client with configured credentials and no on-disk
cache file: `spotify_cache = {}` and `self.type = "api"`. -/
def freshApiClient : SpotifyClient := ⟨true, emptyCache, false, "api"⟩

/-- A visitor-mode client holding a valid, unexpired cached token. -/
def visClient : SpotifyClient :=
  ⟨false, ⟨some "vtok", some 3600, some 3600, some "visitor", none⟩, false, "visitor"⟩

/-- C2: this theorem evaluates the code at the claim's failing inputs. In
the initial Unset state (empty cache, no cache file) `get_valid_access_token`
raises `KeyError` on `spotify_cache["expires_at"]` instead of refreshing;
and in client-credentials mode, immediately after a successful refresh with
an unexpired token and unchanged configuration, the next call triggers
another refresh, because the refresh stored the cached mode under the
misspelled key `"tyoe"`, so `spotify_cache.get("type")` is `None` and never
equals `self.type`. -/
theorem c2_token_cache_bug :
    get_valid_access_token freshApiClient 0 teDefault =
      Except.error (TokErr.keyError "expires_at") ∧
    get_valid_access_token (get_access_token freshApiClient 0 teDefault) 5 teDefault =
      Except.ok ("atok",
        get_access_token (get_access_token freshApiClient 0 teDefault) 5 teDefault, true) ∧
    (get_access_token freshApiClient 0 teDefault).spotify_cache.typ = none ∧
    (get_access_token freshApiClient 0 teDefault).spotify_cache.tyoe = some "api" ∧
    (5 : ℚ) < 0 + 3600 := by
  refine ⟨rfl, ?_, rfl, rfl, by norm_num⟩
  norm_num [get_valid_access_token, get_access_token, visitorRefresh, freshApiClient,
    teDefault, emptyCache]
  simp

/-- Helper: `get_access_token` never touches the `disabled` flag. -/
theorem get_access_token_disabled (c : SpotifyClient) (now : ℚ) (te : TokenEnv) :
    (get_access_token c now te).disabled = c.disabled := by
  unfold get_access_token visitorRefresh
  split_ifs <;> rfl

/-- Helper: a successful `get_valid_access_token` returns a client with the
same `disabled` flag. -/
theorem get_valid_access_token_disabled (c : SpotifyClient) (now : ℚ) (te : TokenEnv)
    (tok : String) (c1 : SpotifyClient) (r : Bool)
    (h : get_valid_access_token c now te = Except.ok (tok, c1, r)) :
    c1.disabled = c.disabled := by
  unfold get_valid_access_token at h
  split at h
  · exact absurd h (by simp)
  · split at h
    · split at h
      · exact absurd h (by simp)
      · simp only [Except.ok.injEq, Prod.mk.injEq] at h
        rw [← h.2.1, get_access_token_disabled]
    · split at h
      · exact absurd h (by simp)
      · simp only [Except.ok.injEq, Prod.mk.injEq] at h
        rw [← h.2.1]

/-- Helper: after any `get_access_token` the cache holds both the
`access_token` and `expires_at` keys. -/
theorem get_access_token_cache_keys (c : SpotifyClient) (now : ℚ) (te : TokenEnv) :
    (get_access_token c now te).spotify_cache.access_token ≠ none ∧
    (get_access_token c now te).spotify_cache.expires_at ≠ none := by
  unfold get_access_token visitorRefresh
  split_ifs <;> simp

/-- Helper: `get_valid_access_token` succeeds on any client whose cache has
the `access_token` and `expires_at` keys. -/
theorem get_valid_access_token_ok (c : SpotifyClient) (now : ℚ) (te : TokenEnv)
    (hat : c.spotify_cache.access_token ≠ none)
    (hea : c.spotify_cache.expires_at ≠ none) :
    ∃ res, get_valid_access_token c now te = Except.ok res := by
  unfold get_valid_access_token
  split
  · next heq => exact absurd heq hea
  · split
    · split
      · next heq => exact absurd heq (get_access_token_cache_keys c now te).1
      · exact ⟨_, rfl⟩
    · split
      · next heq => exact absurd heq hat
      · exact ⟨_, rfl⟩

/-- C7: once any request receives HTTP 429 the wrapper sets `disabled` and
returns; every later `request` invocation on that client, with any fuel,
time, token environment or server behaviour, returns the silent disabled
result immediately, makes zero network attempts, and leaves the client —
including its `disabled` flag, which nothing in the module resets —
unchanged. -/
theorem c7_429_disables_permanently (f : Nat) (c : SpotifyClient) (now : ℚ)
    (te : TokenEnv) (hs : Nat → Status) (i : Nat)
    (hnd : c.disabled = false) (h429 : hs i = Status.s429)
    (htok : ∃ tok c1 r, get_valid_access_token c now te = Except.ok (tok, c1, r)) :
    (requestAux (f + 1) c now te hs i).1 = ReqRes.noneRatelimited ∧
    (requestAux (f + 1) c now te hs i).2.1.disabled = true ∧
    (requestAux (f + 1) c now te hs i).2.2 = 1 ∧
    ∀ (g j : Nat) (now2 : ℚ) (te2 : TokenEnv) (hs2 : Nat → Status),
      requestAux (g + 1) (requestAux (f + 1) c now te hs i).2.1 now2 te2 hs2 j =
        (ReqRes.noneDisabled, (requestAux (f + 1) c now te hs i).2.1, 0) := by
  obtain ⟨tok, c1, r, htok⟩ := htok
  have hstep : requestAux (f + 1) c now te hs i =
      (ReqRes.noneRatelimited, { c1 with disabled := true }, 1) := by
    simp [requestAux, hnd, htok, h429]
  refine ⟨by simp [hstep], by simp [hstep], by simp [hstep], ?_⟩
  intro g j now2 te2 hs2
  rw [hstep]
  simp [requestAux]

/-- Witness for C7: the concrete visitor client hits a 429 and is then
permanently short-circuited, even against a server that would answer 200. -/
theorem c7_429_disables_permanently_witness :
    (requestAux 1 visClient 0 teDefault (fun _ => Status.s429) 0).1 =
      ReqRes.noneRatelimited ∧
    (requestAux 1 visClient 0 teDefault (fun _ => Status.s429) 0).2.1.disabled = true ∧
    requestAux 1 (requestAux 1 visClient 0 teDefault (fun _ => Status.s429) 0).2.1 7
        teDefault (fun _ => Status.s200) 0 =
      (ReqRes.noneDisabled, (requestAux 1 visClient 0 teDefault (fun _ => Status.s429) 0).2.1,
        0) :=
  ⟨(c7_429_disables_permanently 0 visClient 0 teDefault (fun _ => Status.s429) 0 rfl rfl
      ⟨"vtok", visClient, false,
        by norm_num [get_valid_access_token, visClient]⟩).1,
   (c7_429_disables_permanently 0 visClient 0 teDefault (fun _ => Status.s429) 0 rfl rfl
      ⟨"vtok", visClient, false,
        by norm_num [get_valid_access_token, visClient]⟩).2.1,
   (c7_429_disables_permanently 0 visClient 0 teDefault (fun _ => Status.s429) 0 rfl rfl
      ⟨"vtok", visClient, false,
        by norm_num [get_valid_access_token, visClient]⟩).2.2.2 0 0 7 teDefault
     (fun _ => Status.s200)⟩

/-- C8 counterexample: the claim says the wrapper retries at most once per
call site and terminates even against a server that keeps answering 401. On
a concrete client with a valid token, against an all-401 server, a single
`request` invocation makes 3 network attempts within recursion depth 3 and
still has not returned — the source recurses on 401 with no retry bound. -/
theorem c8_counterexample :
    (requestAux 3 visClient 0 teDefault (fun _ => Status.s401) 0).1 = ReqRes.fuelOut ∧
    (requestAux 3 visClient 0 teDefault (fun _ => Status.s401) 0).2.2 = 3 := by
  norm_num [requestAux, get_valid_access_token, get_access_token, visitorRefresh,
    visClient, teDefault]

/-- C8 amended: on HTTP 401 the wrapper refreshes the token and recursively
retries the same request with no bound: against a server that always
answers 401, a non-disabled client with a working token cache makes exactly
one network attempt per recursion step and never returns a result — it
exhausts any recursion depth instead of retrying at most once and
terminating. -/
theorem c8_unbounded_401_retry (f : Nat) : ∀ (c : SpotifyClient) (now : ℚ) (te : TokenEnv)
    (hs : Nat → Status) (i : Nat), (∀ j, hs j = Status.s401) → c.disabled = false →
    (∃ res, get_valid_access_token c now te = Except.ok res) →
    (requestAux f c now te hs i).1 = ReqRes.fuelOut ∧
    (requestAux f c now te hs i).2.2 = f := by
  induction f with
  | zero => intro c now te hs i _ _ _; exact ⟨rfl, rfl⟩
  | succ k ih =>
    intro c now te hs i h401 hnd hok
    obtain ⟨⟨tok, c1, r⟩, htok⟩ := hok
    have hc1d : c1.disabled = false := by
      rw [get_valid_access_token_disabled c now te tok c1 r htok, hnd]
    have hc2d : (get_access_token c1 now te).disabled = false := by
      rw [get_access_token_disabled, hc1d]
    have hc2ok := get_valid_access_token_ok (get_access_token c1 now te) now te
      (get_access_token_cache_keys c1 now te).1 (get_access_token_cache_keys c1 now te).2
    obtain ⟨res2, hres2⟩ := hc2ok
    have hrec := ih (get_access_token c1 now te) now te hs (i + 1) h401 hc2d ⟨res2, hres2⟩
    simp [requestAux, hnd, htok, h401 i, hrec.1, hrec.2]

/-- Witness for the amended C8: the concrete all-401 run at depth 2. -/
theorem c8_unbounded_401_retry_witness :
    (requestAux 2 visClient 0 teDefault (fun _ => Status.s401) 0).1 = ReqRes.fuelOut ∧
    (requestAux 2 visClient 0 teDefault (fun _ => Status.s401) 0).2.2 = 2 :=
  c8_unbounded_401_retry 2 visClient 0 teDefault (fun _ => Status.s401) 0 (fun _ => rfl) rfl
    ⟨("vtok", visClient, false), by norm_num [get_valid_access_token, visClient]⟩
